import Mathlib

/-!
Shallow embedding of the client-side upload-and-session core of the
repository (frontend/components/FileUpload.tsx, frontend/components/ChatInterface.tsx,
frontend/types/chat.ts, frontend/pages/index.tsx).

React `useState` state is modelled as explicit record state; each event
handler becomes a pure function from the current state (plus the event's
data) to the next state together with the list of emitted effects
(error callbacks, completion callbacks, opened transmissions, network
requests).  JavaScript truthiness of strings (`""` and `null`/`undefined`
are falsy) and of numbers (`0` is falsy) is modelled explicitly at each
use site.
-/

/- ---------------------------------------------------------------- -/
/- Data model (frontend/types/chat.ts)                              -/
/- ---------------------------------------------------------------- -/

/-- A source citation attached to an assistant answer:
`{ title?: string, url?: string, page?: number }`.  Absent optional
fields are `none`. -/
structure Source where
  title : Option String
  url : Option String
  page : Option Int
deriving DecidableEq, Repr

/-- `ChatMessage` from frontend/types/chat.ts: role, text content and an
optional list of sources.  An absent `sources` field is modelled as the
empty list (the renderer treats `undefined` and `[]` identically: both
fail the `message.sources && message.sources.length > 0` guard). -/
inductive Role
  | user
  | assistant
deriving DecidableEq, Repr

structure ChatMessage where
  type : Role
  content : String
  sources : List Source := []
deriving DecidableEq, Repr

/- ---------------------------------------------------------------- -/
/- FileUpload component (frontend/components/FileUpload.tsx)        -/
/- ---------------------------------------------------------------- -/

/-- A raw file descriptor as the DOM hands it to the component:
display name, declared media type and byte size (the binary payload is
irrelevant to every state transition and is omitted). -/
structure FileDesc where
  name : String
  type : String
  size : Nat
deriving DecidableEq, Repr

/-- The `useState` state of the `FileUpload` component:
`file`, `isUploading`, `uploadProgress`, `dragActive`. -/
structure FileUploadState where
  file : Option FileDesc := none
  isUploading : Bool := false
  uploadProgress : Nat := 0
  dragActive : Bool := false
deriving DecidableEq, Repr

/-- The structured body of a successful upload response:
`{ documentId, documentName }`. -/
structure UploadResult where
  documentId : String
  documentName : String
deriving DecidableEq, Repr

/-- Effects emitted by the `FileUpload` component: the `onUploadError`
and `onUploadComplete` callbacks and the opening of an upload
transmission (`xhr.open` + `xhr.send`). -/
inductive FUEmit
  | uploadError (msg : String)
  | uploadComplete (result : UploadResult)
  | startTransmission (file : FileDesc)
deriving DecidableEq, Repr

/-- Default of the `maxFileSize` prop: `5 * 1024 * 1024` bytes. -/
def defaultMaxFileSize : Nat := 5 * 1024 * 1024

/-- The oversize rejection message:
`` `File size exceeds ${maxFileSize / (1024 * 1024)}MB limit` ``.
JavaScript divides as floats; at every multiple of 1 MiB (in particular
at the 5 MiB default) the quotient is exact, so Nat division agrees. -/
def sizeLimitMessage (maxFileSize : Nat) : String :=
  "File size exceeds " ++ toString (maxFileSize / (1024 * 1024)) ++ "MB limit"

/-- `handleFileSelect` (picker path), given the selected file: rejects a
non-PDF type, then an oversize file, reporting via `onUploadError` and
leaving the state untouched; otherwise stores the file and resets
progress to 0.  (The early return when `e.target.files` is empty never
reaches validation and is outside this model's inputs.) -/
def handleFileSelect (maxFileSize : Nat) (f : FileDesc) (st : FileUploadState) :
    FileUploadState × List FUEmit :=
  if f.type ≠ "application/pdf" then
    (st, [.uploadError "Only PDF files are allowed"])
  else if f.size > maxFileSize then
    (st, [.uploadError (sizeLimitMessage maxFileSize)])
  else
    ({ st with file := some f, uploadProgress := 0 }, [])

/-- `handleDrop` (drag-and-drop path): clears `dragActive`, then runs the
same type and size validation on the dropped file. -/
def handleDrop (maxFileSize : Nat) (f : FileDesc) (st : FileUploadState) :
    FileUploadState × List FUEmit :=
  let st' := { st with dragActive := false }
  if f.type ≠ "application/pdf" then
    (st', [.uploadError "Only PDF files are allowed"])
  else if f.size > maxFileSize then
    (st', [.uploadError (sizeLimitMessage maxFileSize)])
  else
    ({ st' with file := some f, uploadProgress := 0 }, [])

/-- The synchronous part of `handleUpload`: returns immediately when no
file is selected; otherwise sets `isUploading` and opens one upload
transmission of the candidate.  (Progress, load and error callbacks of
the transmission are modelled separately below.) -/
def handleUpload (st : FileUploadState) : FileUploadState × List FUEmit :=
  match st.file with
  | none => (st, [])
  | some f => ({ st with isUploading := true }, [.startTransmission f])

/-- The `disabled` condition of the upload button:
`disabled={!file || isUploading}`. -/
def uploadButtonDisabled (st : FileUploadState) : Bool :=
  st.file.isNone || st.isUploading

/-- A user click on the upload button: the DOM suppresses the click when
the button is disabled; otherwise `handleUpload` runs.  This is the only
call site of `handleUpload` in the program. -/
def clickUpload (st : FileUploadState) : FileUploadState × List FUEmit :=
  if uploadButtonDisabled st then (st, []) else handleUpload st

/-- An XHR upload progress event: `lengthComputable`, `loaded`, `total`. -/
structure ProgressEvent where
  lengthComputable : Bool
  loaded : Nat
  total : Nat
deriving DecidableEq, Repr

/-- `Math.round((loaded / total) * 100)` over exact rationals: round half
away from zero, i.e. (for non-negative arguments) floor of
`loaded * 100 / total + 1/2`, which over Nat is
`(200 * loaded + total) / (2 * total)`. -/
def jsRound100 (loaded total : Nat) : Nat :=
  (200 * loaded + total) / (2 * total)

/-- The progress listener: when the event's length is computable, store
`Math.round((event.loaded / event.total) * 100)` into `uploadProgress`;
otherwise do nothing. -/
def onProgress (e : ProgressEvent) (st : FileUploadState) : FileUploadState :=
  if e.lengthComputable then
    { st with uploadProgress := jsRound100 e.loaded e.total }
  else st

/-- `xhr.onload`: on status 200 parse the body and fire
`onUploadComplete`; on any other status fire `onUploadError` with the
status text (falling back to "Upload failed" when the status text is
empty, per `xhr.statusText || 'Upload failed'`); finally clear
`isUploading`.  A body that does not parse (`body = none`) makes
`JSON.parse` throw: the exception escapes the handler, so neither the
completion callback nor `setIsUploading(false)` runs and the state is
returned unchanged. -/
def xhrOnload (status : Nat) (statusText : String) (body : Option UploadResult)
    (st : FileUploadState) : FileUploadState × List FUEmit :=
  if status = 200 then
    match body with
    | some r => ({ st with isUploading := false }, [.uploadComplete r])
    | none => (st, [])
  else
    ({ st with isUploading := false },
     [.uploadError (if statusText = "" then "Upload failed" else statusText)])

/-- `xhr.onerror`: fire `onUploadError` with the fixed network-error
message and clear `isUploading`. -/
def xhrOnerror (st : FileUploadState) : FileUploadState × List FUEmit :=
  ({ st with isUploading := false }, [.uploadError "Network error during upload"])

/- ---------------------------------------------------------------- -/
/- Home page / session controller (frontend/pages/index.tsx)        -/
/- ---------------------------------------------------------------- -/

/-- The `useState` state of the `Home` page: the active document
identifier/name (or `none`) and the conversation log. -/
structure HomeState where
  documentId : Option String := none
  documentName : Option String := none
  messages : List ChatMessage := []
deriving DecidableEq, Repr

/-- A request to the answer endpoint:
`POST /api/query` with JSON body `{ documentId, question }`. -/
structure QueryRequest where
  documentId : String
  question : String
deriving DecidableEq, Repr

/-- The parsed body of a successful query response:
`{ answer, sources? }`; an absent `sources` is the empty list. -/
structure QueryResponse where
  answer : String
  sources : List Source := []
deriving DecidableEq, Repr

/-- How a dispatched query resolves: `ok data` for a parsed success
response, `failure` for a non-ok status or any thrown exception (both
land in the same `catch` block). -/
inductive QueryOutcome
  | ok (data : QueryResponse)
  | failure
deriving DecidableEq, Repr

/-- `handleUploadComplete`: record the document identifier and name as
active and replace the whole conversation log with the single
confirmation message. -/
def handleUploadComplete (r : UploadResult) (st : HomeState) : HomeState :=
  { st with
    documentId := some r.documentId
    documentName := some r.documentName
    messages := [⟨.assistant,
      "Document \"" ++ r.documentName ++
        "\" has been uploaded successfully. You can now ask questions about it.", []⟩] }

/-- `handleUploadError`: replace the whole conversation log with a single
assistant message carrying the error text; the active document
identifier and name are not touched. -/
def handleUploadError (err : String) (st : HomeState) : HomeState :=
  { st with messages := [⟨.assistant, "Upload error: " ++ err, []⟩] }

/-- The local precondition-failure message appended when no document is
active. -/
def noDocumentMessage : ChatMessage :=
  ⟨.assistant, "Please upload a document first before asking questions.", []⟩

/-- The synchronous prefix of `handleChatSubmit`, up to and including the
dispatch of the query: `if (!documentId)` — a `null` or empty identifier
is falsy — append the precondition message and stop with no request;
otherwise append the user message and issue the single request carrying
the active identifier and the question text. -/
def handleChatSubmitStart (q : String) (st : HomeState) : HomeState × List QueryRequest :=
  match st.documentId with
  | none => ({ st with messages := st.messages ++ [noDocumentMessage] }, [])
  | some d =>
    if d = "" then
      ({ st with messages := st.messages ++ [noDocumentMessage] }, [])
    else
      ({ st with messages := st.messages ++ [⟨.user, q, []⟩] }, [⟨d, q⟩])

/-- The continuation of `handleChatSubmit` once the dispatched query
resolves: a success response appends the answer with its sources; any
failure appends the generic error message. -/
def handleChatSubmitFinish (outcome : QueryOutcome) (st : HomeState) : HomeState :=
  match outcome with
  | .ok data =>
    { st with messages := st.messages ++ [⟨.assistant, data.answer, data.sources⟩] }
  | .failure =>
    { st with messages :=
        st.messages ++ [⟨.assistant, "Sorry, there was an error processing your question.", []⟩] }

/-- JavaScript truthiness of the `documentId` field: `null` and `""` are
falsy. -/
def documentIdTruthy : Option String → Bool
  | none => false
  | some s => !(s == "")

/- ---------------------------------------------------------------- -/
/- ChatInterface component (frontend/components/ChatInterface.tsx)  -/
/- ---------------------------------------------------------------- -/

/-- JavaScript `String.prototype.trim`: strip leading and trailing
whitespace (modelled over the underlying character list; the ASCII
whitespace characters relevant here coincide with `Char.isWhitespace`). -/
def jsTrim (s : String) : String :=
  ⟨((s.data.dropWhile Char.isWhitespace).reverse.dropWhile Char.isWhitespace).reverse⟩

/-- `handleSendMessage` of `ChatInterface`, acting through the
`onSendMessage` prop (wired to `handleChatSubmit` by `Home`): a no-op
when the trimmed input is empty (`!input.trim()`) or the `isLoading`
prop is asserted; otherwise it runs the submission.  Returned are the
state after the synchronous prefix of the submission and the requests
it issued. -/
def handleSendMessage (isLoading : Bool) (input : String) (st : HomeState) :
    HomeState × List QueryRequest :=
  if jsTrim input = "" ∨ isLoading = true then (st, [])
  else handleChatSubmitStart input st

/-- The `isLoading` prop `Home` passes to `ChatInterface`: the JSX at the
`ChatInterface` call site passes only `messages`, `onSendMessage` and
`placeholder`, so the prop is omitted. -/
def homeIsLoadingProp : Option Bool := none

/-- The effective `isLoading` value inside `ChatInterface` as composed by
`Home`: the omitted prop takes its declared default `false`. -/
def chatIsLoading : Bool := homeIsLoadingProp.getD false

/-- The label of a rendered citation entry:
`{source.title || source.url}` — an empty or absent title falls back to
the URL, and an absent URL renders as nothing. -/
def sourceLabel (s : Source) : String :=
  match s.title with
  | some t => if t = "" then s.url.getD "" else t
  | none => s.url.getD ""

/-- The page part of a rendered citation entry:
`` {source.page && ` (page ${source.page})`} `` — an absent page renders
nothing; a page of `0` is falsy, so the conjunction evaluates to `0`,
which React renders as the bare text "0"; any other page renders the
annotation. -/
def pageSuffix : Option Int → String
  | none => ""
  | some n => if n = 0 then "0" else " (page " ++ toString n ++ ")"

/-- The full text of one rendered citation list entry. -/
def renderSource (s : Source) : String :=
  sourceLabel s ++ pageSuffix s.page

/- ---------------------------------------------------------------- -/
/- Concrete states used by witnesses and counterexamples            -/
/- ---------------------------------------------------------------- -/

/-- A well-formed PDF candidate. -/
def pdfA : FileDesc := ⟨"a.pdf", "application/pdf", 100⟩

/-- A non-PDF file. -/
def txtFile : FileDesc := ⟨"notes.txt", "text/plain", 100⟩

/-- An upload-component state holding a previously accepted candidate. -/
def stWithCandidate : FileUploadState :=
  { file := some pdfA, isUploading := false, uploadProgress := 0, dragActive := false }

/-- An upload-component state in mid-transmission. -/
def stMidUpload : FileUploadState :=
  { file := some pdfA, isUploading := true, uploadProgress := 37, dragActive := false }

/-- A session with an active document and an empty log. -/
def sessActive : HomeState :=
  { documentId := some "doc-1", documentName := some "r.pdf", messages := [] }

/-- The session after the synchronous prefix of a first submission,
while that submission is still in flight. -/
def sessInFlight : HomeState :=
  (handleSendMessage chatIsLoading "q1" sessActive).1

/-- A session with no active document. -/
def sessNoDoc : HomeState :=
  { documentId := none, documentName := none, messages := [] }

/-- A session whose log already holds a user message. -/
def sessPrior : HomeState :=
  { documentId := none, documentName := none, messages := [⟨.user, "hi", []⟩] }

/- ---------------------------------------------------------------- -/
/- Helper lemmas                                                    -/
/- ---------------------------------------------------------------- -/

/-- The rounded percentage is bounded by 100 whenever no more bytes are
reported sent than the total. -/
theorem jsRound100_le_100 (loaded total : Nat) (h0 : 0 < total) (h : loaded ≤ total) :
    jsRound100 loaded total ≤ 100 := by
  unfold jsRound100
  have hlt : 200 * loaded + total < 101 * (2 * total) := by nlinarith
  have := (Nat.div_lt_iff_lt_mul (by omega : 0 < 2 * total)).mpr
    (by nlinarith : 200 * loaded + total < 101 * (2 * total))
  omega

/-- The rounded percentage is monotone in the bytes sent. -/
theorem jsRound100_mono (t l1 l2 : Nat) (h : l1 ≤ l2) :
    jsRound100 l1 t ≤ jsRound100 l2 t :=
  Nat.div_le_div_right (by omega)

/- ---------------------------------------------------------------- -/
/- Claim theorems                                                   -/
/- ---------------------------------------------------------------- -/

/-- C4: every progress notification with computable length stores exactly
`round(bytesSent / bytesTotal * 100)`; under `bytesSent ≤ bytesTotal`
that value already lies in `[0, 100]` (values are Nat, hence ≥ 0), so it
equals its clamp to `[0, 100]`; and the rounding map is monotone in the
bytes sent, so any transmission whose reported byte counts are
non-decreasing yields a non-decreasing sequence of reported progress
values. -/
theorem progress_is_rounded_clamped_and_monotone (e : ProgressEvent) (st : FileUploadState)
    (hc : e.lengthComputable = true) (ht : 0 < e.total) (hl : e.loaded ≤ e.total) :
    (onProgress e st).uploadProgress = jsRound100 e.loaded e.total ∧
    jsRound100 e.loaded e.total = min 100 (jsRound100 e.loaded e.total) ∧
    (∀ t l1 l2 : Nat, l1 ≤ l2 → jsRound100 l1 t ≤ jsRound100 l2 t) ∧
    (∀ (t : Nat) (ls : List Nat), ls.Chain' (· ≤ ·) →
      (ls.map (fun l => jsRound100 l t)).Chain' (· ≤ ·)) := by
  refine ⟨by simp [onProgress, hc], (min_eq_right (jsRound100_le_100 _ _ ht hl)).symm,
    fun t l1 l2 h => jsRound100_mono t l1 l2 h, fun t ls h => ?_⟩
  rw [List.chain'_map]
  exact h.imp fun a b hab => jsRound100_mono t a b hab

theorem progress_is_rounded_clamped_and_monotone_witness :
    (onProgress ⟨true, 50, 200⟩ stWithCandidate).uploadProgress = jsRound100 50 200 :=
  (progress_is_rounded_clamped_and_monotone ⟨true, 50, 200⟩ stWithCandidate rfl
    (by decide) (by decide)).1

/-- C5: at most one upload transmission is in flight per component
instance: while `isUploading` is set, the upload button is disabled, so
a second activation of the upload trigger is a no-op — it changes no
state and opens no transmission.  (The button is the sole call site of
`handleUpload` in the program, and the DOM suppresses clicks on a
disabled button.) -/
theorem second_upload_trigger_is_noop (st : FileUploadState)
    (h : st.isUploading = true) :
    clickUpload st = (st, []) := by
  simp [clickUpload, uploadButtonDisabled, h]

theorem second_upload_trigger_is_noop_witness :
    clickUpload stMidUpload = (stMidUpload, []) :=
  second_upload_trigger_is_noop stMidUpload rfl

/-- C9: the picker-selection path and the drag-and-drop path make
identical accept/reject decisions for every file and every prior state:
they emit the same error reports (same messages) and produce the same
candidate, the same progress and the same in-flight flag.  (The drop
path additionally clears the presentational `dragActive` flag, which is
not part of the upload state machine.) -/
theorem select_and_drop_validate_identically (maxFileSize : Nat) (f : FileDesc)
    (st : FileUploadState) :
    (handleFileSelect maxFileSize f st).2 = (handleDrop maxFileSize f st).2 ∧
    (handleFileSelect maxFileSize f st).1.file = (handleDrop maxFileSize f st).1.file ∧
    (handleFileSelect maxFileSize f st).1.uploadProgress
      = (handleDrop maxFileSize f st).1.uploadProgress ∧
    (handleFileSelect maxFileSize f st).1.isUploading
      = (handleDrop maxFileSize f st).1.isUploading := by
  unfold handleFileSelect handleDrop
  split_ifs <;> simp

/-- C3 (code bug): the claim that every upload failure path clears the
in-flight flag fails on a 200 response whose body does not parse:
`JSON.parse` throws inside `xhr.onload` before `setIsUploading(false)`
is reached, so the state is unchanged — `isUploading` stays `true` and
the upload button stays disabled, permanently.  The other failure paths
(non-200 status, transport error) do clear the flag, and a validation
rejection leaves the flag untouched, as the claim says. -/
theorem unparseable_success_body_leaves_upload_stuck :
    xhrOnload 200 "OK" none stMidUpload = (stMidUpload, []) ∧
    (xhrOnload 200 "OK" none stMidUpload).1.isUploading = true ∧
    uploadButtonDisabled (xhrOnload 200 "OK" none stMidUpload).1 = true ∧
    (xhrOnload 500 "Internal Server Error" none stMidUpload).1.isUploading = false ∧
    (xhrOnload 500 "Internal Server Error" none stMidUpload).2
      = [.uploadError "Internal Server Error"] ∧
    (xhrOnerror stMidUpload).1.isUploading = false := by
  decide

/-- C10: whenever the upload error channel fires, `handleUploadError`
replaces the entire conversation log with exactly one assistant message
whose content is the fixed tag followed by the error text, and leaves
the active document identifier and name unchanged; and a pure
validation failure (non-PDF media type) feeds this channel — it emits
exactly one error report, opens no transmission, and changes no upload
state. -/
theorem upload_error_replaces_log_keeps_document (err : String) (st : HomeState)
    (f : FileDesc) (maxFileSize : Nat) (ust : FileUploadState)
    (hf : f.type ≠ "application/pdf") :
    handleUploadError err st
      = { st with messages := [⟨.assistant, "Upload error: " ++ err, []⟩] } ∧
    (handleFileSelect maxFileSize f ust).1 = ust ∧
    (handleFileSelect maxFileSize f ust).2
      = [.uploadError "Only PDF files are allowed"] := by
  refine ⟨rfl, ?_, ?_⟩ <;> simp [handleFileSelect, hf]

theorem upload_error_replaces_log_keeps_document_witness :
    handleUploadError "boom" sessActive
      = { sessActive with messages := [⟨.assistant, "Upload error: " ++ "boom", []⟩] } :=
  (upload_error_replaces_log_keeps_document "boom" sessActive txtFile
    defaultMaxFileSize stWithCandidate (by decide)).1

/-- C1 (counterexample): the claim that a loading flag is asserted during
an in-flight submission and makes a second submit call a no-op is false
of the composed program: `Home` passes no `isLoading` prop, so
`ChatInterface` runs with the default `false` permanently, and a second
call to the submit trigger while the first submission is in flight
appends a further message and issues a further network request. -/
theorem second_submit_while_in_flight_dispatches :
    chatIsLoading = false ∧
    (handleSendMessage chatIsLoading "q2" sessInFlight).2 = [⟨"doc-1", "q2"⟩] ∧
    (handleSendMessage chatIsLoading "q2" sessInFlight).1.messages.length
      = sessInFlight.messages.length + 1 := by
  decide

/-- C1 (amended): `ChatInterface` does gate its submit trigger on the
`isLoading` prop — whenever the prop is asserted, the trigger is a
no-op — but the session controller never asserts it (the prop is
omitted at the call site and defaults to `false`), so no loading flag
is asserted for any in-flight submission and a second submit call while
one is in flight is dispatched rather than suppressed. -/
theorem loading_gate_exists_but_is_never_asserted :
    (∀ (input : String) (st : HomeState), handleSendMessage true input st = (st, [])) ∧
    homeIsLoadingProp = none ∧
    chatIsLoading = false ∧
    (handleSendMessage chatIsLoading "q2" sessInFlight).2.length = 1 := by
  refine ⟨fun input st => by simp [handleSendMessage], rfl, rfl, by decide⟩

/-- C2 (counterexample): the claim that every operation of the session
and conversation controllers preserves all prior log messages is false:
`handleUploadComplete` replaces the log wholesale — a user message
present before the operation is gone afterwards. -/
theorem upload_complete_discards_prior_log :
    (⟨.user, "hi", []⟩ : ChatMessage) ∈ sessPrior.messages ∧
    (handleUploadComplete ⟨"doc-1", "r.pdf"⟩ sessPrior).messages.length = 1 ∧
    (⟨.user, "hi", []⟩ : ChatMessage) ∉
      (handleUploadComplete ⟨"doc-1", "r.pdf"⟩ sessPrior).messages := by
  decide

/-- C2 (amended): the conversation controller's own operations are
append-only — after each phase of a submission the prior log is an
unchanged prefix of the new log (every prior message is still present,
unedited, at its position); the session controller's upload-completion
and upload-error handlers, by contrast, replace the log with a single
fresh message. -/
theorem conversation_appends_session_replaces :
    (∀ (q : String) (st : HomeState),
      ∃ t, (handleChatSubmitStart q st).1.messages = st.messages ++ t) ∧
    (∀ (o : QueryOutcome) (st : HomeState),
      ∃ t, (handleChatSubmitFinish o st).messages = st.messages ++ t) ∧
    (∀ (b : Bool) (input : String) (st : HomeState),
      ∃ t, (handleSendMessage b input st).1.messages = st.messages ++ t) ∧
    (∀ (r : UploadResult) (st : HomeState),
      (handleUploadComplete r st).messages.length = 1) ∧
    (∀ (e : String) (st : HomeState),
      (handleUploadError e st).messages.length = 1) := by
  have hstart : ∀ (q : String) (st : HomeState),
      ∃ t, (handleChatSubmitStart q st).1.messages = st.messages ++ t := by
    intro q st
    unfold handleChatSubmitStart
    cases st.documentId with
    | none => exact ⟨[noDocumentMessage], rfl⟩
    | some d =>
      by_cases hd : d = ""
      · exact ⟨[noDocumentMessage], by simp [hd]⟩
      · exact ⟨[⟨.user, q, []⟩], by simp [hd]⟩
  refine ⟨hstart, ?_, ?_, fun r st => rfl, fun e st => rfl⟩
  · intro o st
    cases o with
    | ok data => exact ⟨[⟨.assistant, data.answer, data.sources⟩], rfl⟩
    | failure =>
      exact ⟨[⟨.assistant, "Sorry, there was an error processing your question.", []⟩], rfl⟩
  · intro b input st
    unfold handleSendMessage
    by_cases h : jsTrim input = "" ∨ b = true
    · exact ⟨[], by simp [h]⟩
    · simpa [h] using hstart input st

/-- C6 (counterexample): the claim that a rejected file clears any prior
candidate is false: selecting a non-PDF file while a candidate is held
reports the validation error but leaves the prior candidate in place
(`file` is still the old candidate, not `none`). -/
theorem rejected_file_keeps_prior_candidate :
    (handleFileSelect defaultMaxFileSize txtFile stWithCandidate).2
      = [.uploadError "Only PDF files are allowed"] ∧
    (handleFileSelect defaultMaxFileSize txtFile stWithCandidate).1.file = some pdfA ∧
    (handleFileSelect defaultMaxFileSize txtFile stWithCandidate).1.file ≠ none := by
  decide

/-- C6 (amended): for every file whose declared media type is not exactly
`application/pdf` or whose size exceeds the configured maximum,
`handleFileSelect` rejects: it emits exactly one validation-error
report, makes no state change at all — in particular the prior
candidate is retained, not cleared — never sets the in-flight flag, and
opens no transmission. -/
theorem invalid_select_rejects_without_state_change (maxFileSize : Nat) (f : FileDesc)
    (st : FileUploadState)
    (h : f.type ≠ "application/pdf" ∨ maxFileSize < f.size) :
    (handleFileSelect maxFileSize f st).1 = st ∧
    ∃ msg, (handleFileSelect maxFileSize f st).2 = [.uploadError msg] := by
  unfold handleFileSelect
  split_ifs with h1 h2
  · exact ⟨rfl, _, rfl⟩
  · exact ⟨rfl, _, rfl⟩
  · rcases h with h | h
    · exact absurd h h1
    · exact absurd h (by omega)

theorem invalid_select_rejects_without_state_change_witness :
    (handleFileSelect defaultMaxFileSize txtFile stWithCandidate).1 = stWithCandidate :=
  (invalid_select_rejects_without_state_change defaultMaxFileSize txtFile stWithCandidate
    (Or.inl (by decide))).1

/-- C7: a non-empty question submitted while an active (non-empty)
document identifier is set issues exactly one request to the answer
endpoint, carrying that identifier and the question text, after
appending the user message; a successful response appends one assistant
message holding the returned answer text and its source citations; and
whenever a citation carries a page number, the rendered citation entry
contains that number's text (as the ` (page n)` annotation for a
nonzero page; a zero page is falsy in the renderer's guard, so React
renders the bare number instead). -/
theorem active_submit_single_request_and_citations (d q ans : String) (st : HomeState)
    (srcs : List Source)
    (hd : st.documentId = some d) (hne : d ≠ "") (hq : jsTrim q ≠ "") :
    (handleSendMessage chatIsLoading q st).2 = [⟨d, q⟩] ∧
    (handleSendMessage chatIsLoading q st).1.messages
      = st.messages ++ [⟨.user, q, []⟩] ∧
    handleChatSubmitFinish (.ok ⟨ans, srcs⟩) ((handleSendMessage chatIsLoading q st).1)
      = { (handleSendMessage chatIsLoading q st).1 with
          messages := (handleSendMessage chatIsLoading q st).1.messages
            ++ [⟨.assistant, ans, srcs⟩] } ∧
    (∀ s ∈ srcs, ∀ n : Int, s.page = some n →
      ∃ pre post, renderSource s = pre ++ toString n ++ post) := by
  have hsend : handleSendMessage chatIsLoading q st = handleChatSubmitStart q st := by
    simp [handleSendMessage, chatIsLoading, homeIsLoadingProp, hq]
  have hstart : handleChatSubmitStart q st
      = ({ st with messages := st.messages ++ [⟨.user, q, []⟩] }, [⟨d, q⟩]) := by
    simp [handleChatSubmitStart, hd, hne]
  refine ⟨by rw [hsend, hstart], by rw [hsend, hstart], rfl, ?_⟩
  intro s hs n hn
  unfold renderSource
  rw [hn]
  by_cases h0 : n = 0
  · refine ⟨sourceLabel s, "", ?_⟩
    rw [h0, String.append_empty]
    rfl
  · exact ⟨sourceLabel s ++ " (page ", ")", by
      simp [pageSuffix, h0, String.append_assoc]⟩

theorem active_submit_single_request_and_citations_witness :
    (handleSendMessage chatIsLoading "What is the revenue?" sessActive).2
      = [⟨"doc-1", "What is the revenue?"⟩] :=
  (active_submit_single_request_and_citations "doc-1" "What is the revenue?" "42"
    sessActive [⟨some "Report", none, some 3⟩] rfl (by decide) (by decide)).1

/-- C8: a question submitted while no active document identifier is set
(the identifier is `null` or empty, hence falsy) appends exactly one
locally-authored assistant message explaining the precondition failure
and issues zero network requests. -/
theorem no_document_submit_is_local_only (q : String) (st : HomeState)
    (hq : jsTrim q ≠ "") (hd : documentIdTruthy st.documentId = false) :
    (handleSendMessage chatIsLoading q st).1.messages
      = st.messages ++ [noDocumentMessage] ∧
    (handleSendMessage chatIsLoading q st).2 = [] := by
  have hsend : handleSendMessage chatIsLoading q st = handleChatSubmitStart q st := by
    simp [handleSendMessage, chatIsLoading, homeIsLoadingProp, hq]
  rw [hsend]
  unfold handleChatSubmitStart
  cases h : st.documentId with
  | none => exact ⟨rfl, rfl⟩
  | some s =>
    have hs : s = "" := by simpa [documentIdTruthy, h] using hd
    simp [hs]

theorem no_document_submit_is_local_only_witness :
    (handleSendMessage chatIsLoading "What is the revenue?" sessNoDoc).2 = [] :=
  (no_document_submit_is_local_only "What is the revenue?" sessNoDoc
    (by decide) rfl).2
